import Mathlib

set_option maxHeartbeats 1000000

namespace DistillWebhookVisualizer

/-! Shallow embedding of the funding-rate cache core of the
distill-webhook-visualizer backend.  The warmer loop, the startup hook, the
schema-migration block and the initial-user seeding are translated from
src/backend/main.py.  The RateCache data model and its operations live in
app/api/dex.py, which is not part of the sources at hand; those definitions
are modelled from the specification and carry a doc comment saying so. -/

/-- Modelled from the spec: RateSnapshot (spec section 3).  The snapshot type is
produced by the fetch code in app/api/dex.py, which is missing from the sources.
The payload is an opaque mapping of instrument identifier to funding-rate value,
fetchedAt is the timestamp of the successful fetch, and source tags the upstream
call that produced it. -/
structure RateSnapshot where
  payload : List (String × Int)
  fetchedAt : Nat
  source : String
  deriving Repr, DecidableEq

/-- Modelled from the spec: a fetch failure record, kind plus message plus
timestamp (spec section 3, lastError field); the error type belongs to
app/api/dex.py, missing from the sources. -/
structure FetchError where
  kind : String
  message : String
  timestamp : Nat
  deriving Repr, DecidableEq

/-- Modelled from the spec: CacheState (spec section 3), held by the RateCache in
app/api/dex.py, missing from the sources.  current is the latest published
snapshot or none before the first success, lastError the most recent failure,
inFlight the single-flight gate. -/
structure CacheState where
  current : Option RateSnapshot
  lastError : Option FetchError
  inFlight : Bool
  deriving Repr, DecidableEq

/-- CacheState is created empty at process start (spec section 3, lifecycle). -/
def CacheState.empty : CacheState :=
  { current := none, lastError := none, inFlight := false }

/-- Outcome of one upstream fetch attempt: the RateSource collaborator either
returns a snapshot or fails with a transient error (spec section 6). -/
abbrev FetchResult := Except FetchError RateSnapshot

/-- Modelled from the spec: publish(snapshot) replaces current and clears
lastError (spec section 4.1); implemented inside app/api/dex.py, missing from
the sources. -/
def publish (st : CacheState) (s : RateSnapshot) : CacheState :=
  { st with current := some s, lastError := none }

/-- Modelled from the spec: record_failure(error) sets lastError and leaves
current untouched (spec section 4.1); implemented inside app/api/dex.py, missing
from the sources. -/
def record_failure (st : CacheState) (e : FetchError) : CacheState :=
  { st with lastError := some e }

/-- The single fetch-completion path (spec section 3, lifecycle): a successful
fetch publishes its snapshot, a failed fetch records the error. -/
def fetchCompletion (st : CacheState) : FetchResult → CacheState
  | Except.ok s => publish st s
  | Except.error e => record_failure st e

/-- Modelled from the spec: read() returns the current snapshot, or absent
before the first successful fetch (spec section 4.1); implemented inside
app/api/dex.py, missing from the sources.  It is a pure projection of the
state: it performs no upstream call and never waits on one. -/
def read (st : CacheState) : Option RateSnapshot :=
  st.current

/-- Startup grace delay before the first fetch attempt: the sleep of 5 time
units at the top of background_cache_warmer, src/backend/main.py line 62. -/
def graceDelay : Nat := 5

/-- Steady-state refresh interval: the sleep of 60 time units at the end of
every loop iteration of background_cache_warmer, src/backend/main.py line 73. -/
def refreshInterval : Nat := 60

/-- One iteration of the while-True loop of background_cache_warmer,
src/backend/main.py lines 64 to 73: the loop attempts the forced refresh inside
a try block; a success publishes the fetched snapshot, and any exception is
caught by the except branch and recorded as the failure; on both branches the
loop then sleeps refreshInterval before the next attempt.  Returns the cache
state after the tick and the delay until the next attempt. -/
def warmerTick (st : CacheState) (r : FetchResult) : CacheState × Nat :=
  (fetchCompletion st r, refreshInterval)

/-- Time of the fetch attempt number k, counting from 0: the warmer sleeps
graceDelay once, then one refreshInterval between consecutive attempts
(src/backend/main.py lines 62 and 73). -/
def attemptTime (k : Nat) : Nat :=
  graceDelay + k * refreshInterval

/-- Cache state after the warmer loop has consumed a list of fetch outcomes,
starting from the empty state the process begins with. -/
def stateAfter (outcomes : List FetchResult) : CacheState :=
  List.foldl fetchCompletion CacheState.empty outcomes

/-- Number of fetch attempts the warmer has completed by time t, treating each
fetch as completing at its attempt time. -/
def attemptsBy (t : Nat) : Nat :=
  if t < graceDelay then 0 else (t - graceDelay) / refreshInterval + 1

/-- Cache state visible to a reader at time t, given the trace of fetch
outcomes the warmer consumes in order. -/
def stateAt (outcomes : List FetchResult) (t : Nat) : CacheState :=
  stateAfter (outcomes.take (attemptsBy t))

/-- Helper: the published snapshot after folding the fetch-completion path over
a trace is the last successful outcome of the trace, or the starting snapshot
when the trace holds no success. -/
theorem current_foldl (l : List FetchResult) (st : CacheState) :
    (List.foldl fetchCompletion st l).current =
      List.foldl
        (fun acc r => match r with
          | Except.ok s => some s
          | Except.error _ => acc)
        st.current l := by
  induction l generalizing st with
  | nil => rfl
  | cons r rest ih =>
    cases r with
    | ok s => simp [List.foldl, fetchCompletion, publish, ih]
    | error e => simp [List.foldl, fetchCompletion, record_failure, ih]

/-- Modelled from the spec: the bounded per-fetch timeout applied inside the
single-flight fetch path (spec sections 5 and 8); the fetch implementation is in
app/api/dex.py, missing from the sources.  duration is how long the upstream
call would take on its own; a call running past the timeout is cut off there and
treated as a failed fetch, otherwise the genuine outcome is delivered after
duration.  The second component is how long the single-flight gate is held. -/
def runFetchWithTimeout (timeout duration : Nat) (r : FetchResult) (now : Nat) :
    FetchResult × Nat :=
  if timeout < duration then
    (Except.error { kind := "timeout", message := "per-fetch timeout exceeded",
                    timestamp := now }, timeout)
  else (r, duration)

/-- Modelled from the spec: single-flight coordination of k concurrent
get_or_refresh calls with force set, issued while no fetch is in flight (spec
sections 4.1 and 8); get_or_refresh is in app/api/dex.py, missing from the
sources.  With no caller there is nothing to do; otherwise the first caller
performs the one upstream call, the remaining callers attach to it, and every
caller receives the snapshot read from the completed state, which is the
previous snapshot when the refresh fails.  Returns the number of upstream calls
made, the state after completion, and the result each caller receives. -/
def concurrentForcedRefresh (k : Nat) (st : CacheState) (r : FetchResult) :
    Nat × CacheState × List (Option RateSnapshot) :=
  if k = 0 then (0, st, [])
  else (1, fetchCompletion st r, List.replicate k (read (fetchCompletion st r)))

/-- Cache state after the first n fetch attempts when every attempt succeeds
with the corresponding snapshot of the list. -/
def successesUpTo (snaps : List RateSnapshot) (n : Nat) : CacheState :=
  stateAfter ((snaps.take n).map Except.ok)

/-- Helper: folding the fetch-completion path over the first n plus one
successes leaves the snapshot at index n published, whatever the starting
state. -/
theorem current_foldl_ok (l : List RateSnapshot) (st : CacheState) (n : Nat)
    (h : n < l.length) :
    (List.foldl fetchCompletion st ((l.take (n + 1)).map Except.ok)).current =
      some (l.get ⟨n, h⟩) := by
  induction l generalizing st n with
  | nil => simp at h
  | cons s rest ih =>
    cases n with
    | zero => simp [List.take, fetchCompletion, publish]
    | succ m =>
      have hm : m < rest.length := by
        simpa using h
      simpa [List.take, fetchCompletion, publish] using
        ih (publish st s) m hm

/-- Helper: after n plus one all-successful fetches, read returns the snapshot
of the latest success, the one at index n. -/
theorem read_successesUpTo (snaps : List RateSnapshot) (n : Nat)
    (h : n < snaps.length) :
    read (successesUpTo snaps (n + 1)) = some (snaps.get ⟨n, h⟩) :=
  current_foldl_ok snaps CacheState.empty n h

/-- A row of the user table: username, password hash and active flag, as built
in src/backend/main.py lines 132 to 138. -/
structure UserRow where
  username : String
  password_hash : String
  is_active : Bool
  deriving Repr, DecidableEq

/-- Initial-user seeding in the startup hook, src/backend/main.py lines 116 to
143: when the user table holds zero users, the three users ramu, ligigy and
quasi are inserted with hashed passwords taken from the environment; otherwise
no user is added.  hash stands for User.hash_password and pwds for the three
environment passwords. -/
def seedInitialUsers (hash : String → String) (pwds : String × String × String)
    (table : List UserRow) : List UserRow :=
  if table.length = 0 then
    table ++
      [ { username := "ramu", password_hash := hash pwds.1, is_active := true },
        { username := "ligigy", password_hash := hash pwds.2.1, is_active := true },
        { username := "quasi", password_hash := hash pwds.2.2, is_active := true } ]
  else table

/-- Whether the schema-migration block rewrites alert_configs: exactly when the
formula column is present in the table, src/backend/main.py line 91. -/
def formulaNeedsRemoval (columns : List String) : Bool :=
  columns.contains "formula"

/-- Steps performed by the startup hook, in order. -/
inductive StartupStep where
  | createdTables : StartupStep
  | warmerStarted : StartupStep
  | migrationDone : Bool → StartupStep
  | migrationNote : String → StartupStep
  | seededUsers : List String → StartupStep
  | announced : StartupStep
  deriving Repr, DecidableEq

/-- The startup_event hook, src/backend/main.py lines 76 to 154, as the ordered
list of steps it performs together with the user table it leaves behind:
create_tables, starting the warmer task, the guarded sqlite migration block, the
initial-user seeding, and the final announcement prints.  migration is the
outcome of the fallible sqlite interaction of the try block: either the column
list read by PRAGMA table_info with the rewrite succeeding, or the message of an
exception raised anywhere inside the block, which the except branch catches and
prints as a migration note. -/
def startup_event (migration : Except String (List String))
    (hash : String → String) (pwds : String × String × String)
    (users : List UserRow) : List StartupStep × List UserRow :=
  let migStep := match migration with
    | Except.ok cols => StartupStep.migrationDone (formulaNeedsRemoval cols)
    | Except.error e => StartupStep.migrationNote e
  let users2 := seedInitialUsers hash pwds users
  ([StartupStep.createdTables, StartupStep.warmerStarted, migStep,
    StartupStep.seededUsers (users2.map UserRow.username), StartupStep.announced],
   users2)

/-- Helper: folding the last-success accumulator over a trace yields none
exactly when the accumulator starts as none and the trace holds no success. -/
theorem foldl_lastOk_none (l : List FetchResult) (acc : Option RateSnapshot) :
    (List.foldl (fun acc r => match r with
      | Except.ok s => some s
      | Except.error _ => acc) acc l = none) ↔
    (acc = none ∧ ∀ s : RateSnapshot, Except.ok s ∉ l) := by
  induction l generalizing acc with
  | nil => simp
  | cons r rest ih =>
    cases r with
    | ok s =>
      rw [List.foldl_cons, ih]
      simp only [List.mem_cons]
      constructor
      · rintro ⟨hsome, -⟩
        exact absurd hsome (by simp)
      · rintro ⟨-, hall⟩
        exact absurd (Or.inl rfl) (hall s)
    | error e =>
      rw [List.foldl_cons, ih]
      simp [List.mem_cons]

/-- C1: every exception raised by the upstream fetch during a scheduled tick of
the warmer loop is caught inside the loop body and converted to the recorded
error; the tick still completes and schedules the next attempt after the usual
interval, so the loop continues with no terminal state, the exception never
reaches a caller of read() — whose result is unchanged by the failure — and no
fetch failure aborts the hosting process. -/
theorem warmer_catches_fetch_errors (st : CacheState) (e : FetchError) :
    warmerTick st (Except.error e) = (record_failure st e, refreshInterval) ∧
    (warmerTick st (Except.error e)).1.lastError = some e ∧
    read (warmerTick st (Except.error e)).1 = read st :=
  ⟨rfl, rfl, rfl⟩

/-- C2: the steady-state refresh interval is a fixed 60 time units and is not
extended by failures: whatever the outcome of a tick, the delay before the next
fetch attempt is the same refreshInterval of 60 units, and consecutive attempt
times differ by exactly that interval — no escalating backoff, so a recovered
upstream is re-fetched within one interval. -/
theorem warmer_constant_cadence (st : CacheState) (r : FetchResult) (k : Nat) :
    (warmerTick st r).2 = refreshInterval ∧ refreshInterval = 60 ∧
    attemptTime (k + 1) = attemptTime k + refreshInterval := by
  refine ⟨rfl, rfl, ?_⟩
  simp [attemptTime, refreshInterval, graceDelay]
  ring

/-- C4: the fixed startup grace delay elapses before the first fetch attempt:
with grace delay 5 and interval 60 the first attempt is at time 5 and the second
at time 65; when the first fetch fails and the second succeeds with snapshot S1,
read() at time 10 returns absent and read() at time 70 returns S1. -/
theorem grace_delay_scenario (e : FetchError) (S1 : RateSnapshot) :
    attemptTime 0 = 5 ∧ attemptTime 1 = 65 ∧
    read (stateAt [Except.error e, Except.ok S1] 10) = none ∧
    read (stateAt [Except.error e, Except.ok S1] 70) = some S1 :=
  ⟨rfl, rfl, rfl, rfl⟩

/-- C7: a failed fetch leaves the published snapshot unchanged: record_failure
sets lastError and modifies no other field of CacheState, and after any run of
consecutive failures read() still returns exactly what it returned before — the
last successful snapshot if one existed, absent if no fetch ever succeeded. -/
theorem record_failure_frame (st : CacheState) (e : FetchError)
    (errs : List FetchError) :
    (record_failure st e).current = st.current ∧
    (record_failure st e).inFlight = st.inFlight ∧
    (record_failure st e).lastError = some e ∧
    read (List.foldl fetchCompletion st (errs.map Except.error)) = read st := by
  refine ⟨rfl, rfl, rfl, ?_⟩
  induction errs generalizing st with
  | nil => rfl
  | cons e2 rest ih =>
    rw [List.map_cons, List.foldl_cons, ih]
    rfl

/-- C8: read() returns the current snapshot as a pure projection of the cache
state — it performs no upstream call, so it never blocks on upstream I/O — and
for every trace of fetch outcomes it returns absent exactly when no fetch in the
trace ever succeeded; the before-first-success case is the explicit absent
result, not an error raised to the caller. -/
theorem read_absent_iff_never_succeeded (outcomes : List FetchResult) :
    (read (stateAfter outcomes) = none ↔
      ∀ s : RateSnapshot, Except.ok s ∉ outcomes) ∧
    ∀ st : CacheState, read st = st.current := by
  constructor
  · show (stateAfter outcomes).current = none ↔ _
    rw [stateAfter, current_foldl]
    simpa using foldl_lastOk_none outcomes none
  · intro st
    rfl

/-- C9: every exception raised inside the startup schema-migration block is
caught and surfaced only as a printed migration note: the startup hook performs
the same step sequence as on a successful migration — continuing to the
initial-user seeding and the announcement — and leaves the same user table
behind. -/
theorem migration_errors_contained (e : String) (cols : List String)
    (hash : String → String) (pwds : String × String × String)
    (users : List UserRow) :
    (startup_event (Except.error e) hash pwds users).1 =
      [StartupStep.createdTables, StartupStep.warmerStarted,
       StartupStep.migrationNote e,
       StartupStep.seededUsers
         ((seedInitialUsers hash pwds users).map UserRow.username),
       StartupStep.announced] ∧
    (startup_event (Except.error e) hash pwds users).2 =
      (startup_event (Except.ok cols) hash pwds users).2 :=
  ⟨rfl, rfl⟩

/-- Sample snapshot fetched at the first attempt time. -/
def snapA : RateSnapshot :=
  { payload := [], fetchedAt := 5, source := "dex" }

/-- Sample snapshot fetched at the second attempt time. -/
def snapB : RateSnapshot :=
  { payload := [], fetchedAt := 65, source := "dex" }

/-- Sample existing user row. -/
def sampleUser : UserRow :=
  { username := "someone", password_hash := "h", is_active := true }

/-- C3: a bounded per-fetch timeout is applied to every upstream fetch: a fetch
whose duration exceeds the configured timeout is cut off, delivered as a failure
and recorded as one — the published snapshot readers see is untouched — and the
time the single-flight gate is held never exceeds the timeout, so neither
subsequent scheduled ticks nor reader calls are blocked beyond it. -/
theorem fetch_timeout_bounds_blocking (timeout duration now : Nat)
    (r : FetchResult) (st : CacheState) (h : timeout < duration) :
    (runFetchWithTimeout timeout duration r now).1 =
      Except.error { kind := "timeout", message := "per-fetch timeout exceeded",
                     timestamp := now } ∧
    (fetchCompletion st (runFetchWithTimeout timeout duration r now).1).lastError
      ≠ none ∧
    read (fetchCompletion st (runFetchWithTimeout timeout duration r now).1) =
      read st ∧
    ∀ d : Nat, (runFetchWithTimeout timeout d r now).2 ≤ timeout := by
  have h1 : runFetchWithTimeout timeout duration r now =
      (Except.error { kind := "timeout", message := "per-fetch timeout exceeded",
                      timestamp := now }, timeout) := by
    simp [runFetchWithTimeout, h]
  refine ⟨by rw [h1], by rw [h1]; simp [fetchCompletion, record_failure],
    by rw [h1]; rfl, ?_⟩
  intro d
  by_cases hd : timeout < d
  · simp [runFetchWithTimeout, hd]
  · simp only [runFetchWithTimeout, if_neg hd]
    omega

theorem fetch_timeout_bounds_blocking_witness :
    10 < 25 ∧
    ((runFetchWithTimeout 10 25 (Except.ok snapA) 30).1 =
      Except.error { kind := "timeout", message := "per-fetch timeout exceeded",
                     timestamp := 30 } ∧
     (fetchCompletion CacheState.empty
        (runFetchWithTimeout 10 25 (Except.ok snapA) 30).1).lastError ≠ none ∧
     read (fetchCompletion CacheState.empty
        (runFetchWithTimeout 10 25 (Except.ok snapA) 30).1) =
       read CacheState.empty ∧
     ∀ d : Nat, (runFetchWithTimeout 10 d (Except.ok snapA) 30).2 ≤ 10) :=
  ⟨by decide,
   fetch_timeout_bounds_blocking 10 25 30 (Except.ok snapA) CacheState.empty
     (by decide)⟩

/-- C5: refreshes are single-flight: K concurrent forced refreshes issued while
no fetch is in flight make exactly one upstream call, every one of the K callers
receives the same result — the snapshot read from the completed fetch, or the
retained previous value on the same failure outcome — so at most one upstream
fetch is in flight at any time. -/
theorem single_flight_coalesces (k : Nat) (st : CacheState) (r : FetchResult)
    (hk : 1 ≤ k) (_hfl : st.inFlight = false) :
    (concurrentForcedRefresh k st r).1 = 1 ∧
    (concurrentForcedRefresh k st r).2.1 = fetchCompletion st r ∧
    (concurrentForcedRefresh k st r).2.2.length = k ∧
    ∀ x ∈ (concurrentForcedRefresh k st r).2.2,
      x = read (fetchCompletion st r) := by
  have hk0 : k ≠ 0 := by omega
  refine ⟨by simp [concurrentForcedRefresh, hk0],
    by simp [concurrentForcedRefresh, hk0],
    by simp [concurrentForcedRefresh, hk0], ?_⟩
  intro x hx
  simp only [concurrentForcedRefresh, if_neg hk0] at hx
  exact List.eq_of_mem_replicate hx

theorem single_flight_coalesces_witness :
    (1 ≤ 3 ∧ CacheState.empty.inFlight = false) ∧
    ((concurrentForcedRefresh 3 CacheState.empty (Except.ok snapB)).1 = 1 ∧
     (concurrentForcedRefresh 3 CacheState.empty (Except.ok snapB)).2.1 =
       fetchCompletion CacheState.empty (Except.ok snapB) ∧
     (concurrentForcedRefresh 3 CacheState.empty (Except.ok snapB)).2.2.length
       = 3 ∧
     ∀ x ∈ (concurrentForcedRefresh 3 CacheState.empty (Except.ok snapB)).2.2,
       x = read (fetchCompletion CacheState.empty (Except.ok snapB))) :=
  ⟨⟨by decide, rfl⟩,
   single_flight_coalesces 3 CacheState.empty (Except.ok snapB) (by decide) rfl⟩

/-- C6: snapshot freshness is monotonic: for every sequence of successful
fetches whose snapshots carry their attempt times, read() after the later of two
successes returns a snapshot whose fetchedAt is at least the earlier one, so no
reader observes a snapshot older than one already observed; and a published
snapshot is never mutated in place — the fetch-completion path either installs
exactly the newly fetched snapshot or leaves the previous one as it was. -/
theorem snapshot_freshness_monotone (snaps : List RateSnapshot)
    (hts : ∀ k (hk : k < snaps.length),
      (snaps.get ⟨k, hk⟩).fetchedAt = attemptTime k)
    (n m : Nat) (hnm : n ≤ m) (hm : m ≤ snaps.length)
    (sn sm : RateSnapshot)
    (hsn : read (successesUpTo snaps n) = some sn)
    (hsm : read (successesUpTo snaps m) = some sm)
    (st : CacheState) (r : FetchResult) (s2 : RateSnapshot)
    (hpub : read (fetchCompletion st r) = some s2) :
    sn.fetchedAt ≤ sm.fetchedAt ∧ (r = Except.ok s2 ∨ read st = some s2) := by
  constructor
  · cases n with
    | zero =>
      simp [successesUpTo, stateAfter, read, CacheState.empty] at hsn
    | succ n1 =>
      cases m with
      | zero => omega
      | succ m1 =>
        have hn1 : n1 < snaps.length := by omega
        have hm1 : m1 < snaps.length := by omega
        rw [read_successesUpTo snaps n1 hn1] at hsn
        rw [read_successesUpTo snaps m1 hm1] at hsm
        have esn : sn = snaps.get ⟨n1, hn1⟩ := (Option.some.inj hsn).symm
        have esm : sm = snaps.get ⟨m1, hm1⟩ := (Option.some.inj hsm).symm
        rw [esn, esm, hts n1 hn1, hts m1 hm1]
        simp only [attemptTime, refreshInterval, graceDelay]
        omega
  · cases r with
    | ok s =>
      left
      have hs : s = s2 := by
        simpa [read, fetchCompletion, publish] using hpub
      rw [hs]
    | error e =>
      right
      simpa [read, fetchCompletion, record_failure] using hpub

theorem snapshot_freshness_monotone_witness :
    (1 ≤ 2 ∧ 2 ≤ ([snapA, snapB] : List RateSnapshot).length) ∧
    (snapA.fetchedAt ≤ snapB.fetchedAt ∧
     ((Except.ok snapB : FetchResult) = Except.ok snapB ∨
       read CacheState.empty = some snapB)) :=
  ⟨⟨by decide, by decide⟩,
   snapshot_freshness_monotone [snapA, snapB] (by decide) 1 2 (by decide)
     (by decide) snapA snapB rfl rfl CacheState.empty (Except.ok snapB) snapB
     rfl⟩

/-- C10: initial-user seeding is idempotent across restarts: when the user table
already holds any user the hook adds nothing and leaves the table unchanged;
from an empty table it inserts exactly ramu, ligigy and quasi; and running the
seeding step twice always equals running it once. -/
theorem user_seeding_idempotent (hash : String → String)
    (pwds : String × String × String) (users : List UserRow)
    (h : users ≠ []) :
    seedInitialUsers hash pwds users = users ∧
    (seedInitialUsers hash pwds []).map UserRow.username =
      ["ramu", "ligigy", "quasi"] ∧
    ∀ t : List UserRow,
      seedInitialUsers hash pwds (seedInitialUsers hash pwds t) =
        seedInitialUsers hash pwds t := by
  have hlen : users.length ≠ 0 := fun hl => h (List.length_eq_zero.mp hl)
  refine ⟨by simp [seedInitialUsers, hlen], rfl, ?_⟩
  intro t
  by_cases ht : t.length = 0
  · have hnil : t = [] := List.length_eq_zero.mp ht
    subst hnil
    rfl
  · simp [seedInitialUsers, ht]

theorem user_seeding_idempotent_witness :
    ([sampleUser] : List UserRow) ≠ [] ∧
    (seedInitialUsers id ("a", "b", "c") [sampleUser] = [sampleUser] ∧
     (seedInitialUsers id ("a", "b", "c") []).map UserRow.username =
       ["ramu", "ligigy", "quasi"] ∧
     ∀ t : List UserRow,
       seedInitialUsers id ("a", "b", "c")
           (seedInitialUsers id ("a", "b", "c") t) =
         seedInitialUsers id ("a", "b", "c") t) :=
  ⟨by decide, user_seeding_idempotent id ("a", "b", "c") [sampleUser]
    (by decide)⟩

end DistillWebhookVisualizer
